import Mathlib

/-!
Verification development for the disaster-prone-area classification app
(src/disaster_model.py).  The script collects numeric region attributes
from a form, derives two engineered features, feeds a 7-column row to a
pre-loaded classifier, and renders a folium map with one user marker and
five static high-risk overlays.

Python integers are modelled as ℤ and Python decimal literals and float
inputs as exact rationals ℚ (the script performs pure linear arithmetic
on small decimal constants, with no rounding or clamping of its own).
Exceptions raised by the model or by file output are modelled with
`Except String`, carrying the exception message.
-/

namespace DisasterModel

/-- Raw user inputs captured by the form (source lines 42-49).  The
slider for the disaster score and the three counting inputs are Python
ints, modelled as ℤ; the urbanization slider and the coordinates are
floats, modelled as ℚ. -/
structure RegionInput where
  disaster_score : ℤ
  pop_density : ℤ
  urban_level : ℚ
  houses_affected : ℤ
  deaths : ℤ
  latitude : ℚ
  longitude : ℚ
  deriving DecidableEq, Repr

/-- The numeric ranges enforced by the form widgets (min and max values
of each slider and number input). -/
def InRange (i : RegionInput) : Prop :=
  0 ≤ i.disaster_score ∧ i.disaster_score ≤ 10 ∧
  0 ≤ i.pop_density ∧ i.pop_density ≤ 20000 ∧
  0 ≤ i.urban_level ∧ i.urban_level ≤ 1 ∧
  0 ≤ i.houses_affected ∧ i.houses_affected ≤ 10000 ∧
  0 ≤ i.deaths ∧ i.deaths ≤ 1000 ∧
  5 ≤ i.latitude ∧ i.latitude ≤ 40 ∧
  65 ≤ i.longitude ∧ i.longitude ≤ 100

instance (i : RegionInput) : Decidable (InRange i) := by
  unfold InRange; infer_instance

/-- The two engineered features. -/
structure DerivedFeatures where
  risk_index : ℚ
  damage_scale : ℤ
  deriving DecidableEq, Repr

/-- Feature engineering (source lines 58-59). -/
def derive (i : RegionInput) : DerivedFeatures :=
  { risk_index :=
      (i.disaster_score : ℚ) * 0.5 + (i.pop_density : ℚ) * 0.3 + i.urban_level * 0.2
    damage_scale := i.houses_affected + i.deaths * 10 }

/-- The single feature row of `input_features` (source lines 61-64). -/
def featureRow (i : RegionInput) : List ℚ :=
  [ (i.disaster_score : ℚ), (i.pop_density : ℚ), i.urban_level,
    (i.houses_affected : ℚ), (i.deaths : ℚ),
    (derive i).risk_index, ((derive i).damage_scale : ℚ) ]

/-- `input_features`: a nested list holding exactly one row (source
lines 61-64); this is the argument handed to `model.predict`. -/
def predictArg (i : RegionInput) : List (List ℚ) := [featureRow i]

/-- Marker icon colour rule (source line 87):
`"red" if prediction == "High" else "orange" if prediction == "Medium"
else "green"`. -/
def iconColor (label : String) : String :=
  if label = "High" then "red" else if label = "Medium" then "orange" else "green"

/-- The user-location marker (source lines 83-90). -/
structure Marker where
  location : ℚ × ℚ
  popup : String
  color : String
  icon : String
  deriving DecidableEq, Repr

/-- A filled circle overlay (source lines 102-109). -/
structure Overlay where
  location : ℚ × ℚ
  radius : ℕ
  color : String
  fill : Bool
  fill_opacity : ℚ
  popup : String
  deriving DecidableEq, Repr

/-- The folium map object built per submission (source lines 76-109). -/
structure MapArtifact where
  center : ℚ × ℚ
  zoom : ℕ
  tiles : String
  marker : Marker
  overlays : List Overlay
  deriving DecidableEq, Repr

/-- The static high-risk state table (source lines 93-99). -/
def high_risk_states : List (String × ℚ × ℚ) :=
  [ ("Bihar", 25.9, 85.1),
    ("Assam", 26.2, 91.7),
    ("Odisha", 20.9, 85.1),
    ("Uttarakhand", 30.1, 79.3),
    ("Tamil Nadu", 11.1, 78.7) ]

/-- Map construction (source lines 76-109): dark basemap centered on the
input coordinates at zoom 6, one marker with the risk-level popup and the
three-way icon colour, and one 50 km red circle per high-risk state. -/
def renderMap (latitude longitude : ℚ) (prediction : String) (damage_scale : ℤ) :
    MapArtifact :=
  { center := (latitude, longitude)
    zoom := 6
    tiles := "CartoDB dark_matter"
    marker :=
      { location := (latitude, longitude)
        popup := "<b>Risk Level:</b> " ++ prediction ++
          "<br><b>Damage Scale:</b> " ++ toString damage_scale
        color := iconColor prediction
        icon := "info-sign" }
    overlays := high_risk_states.map fun s =>
      { location := (s.2.1, s.2.2)
        radius := 50000
        color := "red"
        fill := true
        fill_opacity := 0.3
        popup := "High Risk Area: " ++ s.1 } }

/-- The environment injected into a session: the loaded classifier
(`predict` models `model.predict`, which may raise, modelled as
`Except.error` carrying the exception message) and the behaviour of
`map_object.save` (source line 113), which may likewise raise. -/
structure Env where
  predict : List (List ℚ) → Except String (List String)
  saveResult : Except String Unit

/-- The body of the `try` block (source lines 66-116): call predict on
the one-row argument, extract the first returned label, build the map and
save it.  Any step raising an exception short-circuits the block. -/
def trySubmission (env : Env) (i : RegionInput) :
    Except String (String × MapArtifact) := do
  let labels ← env.predict (predictArg i)
  let prediction ← match labels.head? with
    | some l => Except.ok l
    | none => Except.error "index 0 is out of bounds"
  let art := renderMap i.latitude i.longitude prediction (derive i).damage_scale
  let _ ← env.saveResult
  Except.ok (prediction, art)

/-- What the user is shown for the primary flow of one submission. -/
inductive SubmissionOutcome
  | succeeded (label : String) (art : MapArtifact)
  | failed (message : String)
  deriving DecidableEq, Repr

/-- The secondary full-risk-map section (source lines 124-130): either
the saved file is embedded, or a non-fatal warning is shown. -/
inductive Secondary
  | embedFile
  | warnMissing
  deriving DecidableEq, Repr

/-- The primary outcome of one submission, determined by the `try` block
alone: success displays the label and map, any caught exception displays
`Prediction failed: ` followed by the original message (source line 119). -/
def primaryOutcome (env : Env) (i : RegionInput) : SubmissionOutcome :=
  match trySubmission env i with
  | .ok (l, a) => .succeeded l a
  | .error e => .failed ("Prediction failed: " ++ e)

/-- Observable result of processing one submission. -/
structure SubOut where
  outcome : SubmissionOutcome
  mapFileAfter : Bool
  secondary : Secondary
  deriving DecidableEq, Repr

/-- One submission (source lines 56-130): run the `try` block; the map
file on disk is overwritten exactly when the block reached a successful
save; then the secondary full-map display is attempted unconditionally,
warning when the file is absent. -/
def processSubmission (env : Env) (i : RegionInput) (mapFileBefore : Bool) : SubOut :=
  let fileAfter :=
    match trySubmission env i with
    | .ok _ => true
    | .error _ => mapFileBefore
  { outcome := primaryOutcome env i
    mapFileAfter := fileAfter
    secondary := if fileAfter then .embedFile else .warnMissing }

/-- Processing of a sequence of submissions, threading the map-file
state across them. -/
def runSubs (env : Env) : List RegionInput → Bool → List SubOut
  | [], _ => []
  | i :: rest, fb =>
    let out := processSubmission env i fb
    out :: runSubs env rest out.mapFileAfter

/-- Observable result of a whole session. -/
structure SessionResult where
  halted : Bool
  startupError : Option String
  outputs : List SubOut
  deriving DecidableEq, Repr

/-- A session (source lines 20-32 and onwards): `load_model` returns
`None` when the artifact file is absent, in which case an error is shown
and `st.stop` halts the script before the form is ever processed;
otherwise every submission is processed in turn. -/
def runSession (modelFileExists : Bool) (env : Env) (subs : List RegionInput)
    (mapFileInit : Bool) : SessionResult :=
  if modelFileExists then
    { halted := false, startupError := none, outputs := runSubs env subs mapFileInit }
  else
    { halted := true
      startupError := some
        "Model file not found. Please ensure disaster_model.pkl is available in the app directory."
      outputs := [] }

/-- The example scenario of the specification: the default form values. -/
def exampleInput : RegionInput :=
  { disaster_score := 5, pop_density := 5000, urban_level := 0.5,
    houses_affected := 100, deaths := 10, latitude := 22.5, longitude := 78.9 }

/-- An environment whose model raises on every predict call. -/
def envErr : Env :=
  { predict := fun _ => Except.error "boom", saveResult := Except.ok () }

/-- An environment whose model returns the label High and whose map save
succeeds. -/
def envOk : Env :=
  { predict := fun _ => Except.ok ["High"], saveResult := Except.ok () }

/-- An environment whose model returns High but whose map save raises. -/
def envSaveFail : Env :=
  { predict := fun _ => Except.ok ["High"], saveResult := Except.error "disk full" }

/-- Every processed submission invokes predict exactly once, so the
output list has one entry per submission. -/
lemma runSubs_length (env : Env) (subs : List RegionInput) (fb : Bool) :
    (runSubs env subs fb).length = subs.length := by
  induction subs generalizing fb with
  | nil => rfl
  | cons i rest ih => simp [runSubs, ih]

/-- C1: for every RegionInput within the form ranges, derive computes
exactly risk_index = disaster_score*0.5 + population_density*0.3 +
urbanization_level*0.2 and damage_scale = houses_affected +
human_deaths*10, with no rounding or clamping; on the example scenario it
yields risk_index = 1502.6 and damage_scale = 200. -/
theorem derive_formula (i : RegionInput) (h : InRange i) :
    (derive i).risk_index
        = (i.disaster_score : ℚ) * 0.5 + (i.pop_density : ℚ) * 0.3 + i.urban_level * 0.2 ∧
    (derive i).damage_scale = i.houses_affected + i.deaths * 10 ∧
    (derive exampleInput).risk_index = 1502.6 ∧
    (derive exampleInput).damage_scale = 200 := by
  refine ⟨rfl, rfl, by norm_num [derive, exampleInput], by decide⟩

/-- Witness for C1 at the example scenario. -/
theorem derive_formula_witness :
    InRange exampleInput ∧ (derive exampleInput).risk_index = 1502.6 :=
  ⟨by norm_num [InRange, exampleInput],
   (derive_formula exampleInput (by norm_num [InRange, exampleInput])).2.2.1⟩

/-- C2: the argument handed to predict is always a single row, and that
row is exactly the ordered 7-tuple (disaster_score, population_density,
urbanization_level, houses_affected, human_deaths, risk_index,
damage_scale). -/
theorem predictArg_shape (i : RegionInput) :
    predictArg i
        = [[ (i.disaster_score : ℚ), (i.pop_density : ℚ), i.urban_level,
             (i.houses_affected : ℚ), (i.deaths : ℚ),
             (derive i).risk_index, ((derive i).damage_scale : ℚ) ]] ∧
    (predictArg i).length = 1 ∧ (featureRow i).length = 7 :=
  ⟨rfl, rfl, rfl⟩

/-- C3: if the model artifact file is absent at load time the session
halts with the model-not-found error and no submission is ever processed,
so predict is never invoked. -/
theorem absent_model_halts (env : Env) (subs : List RegionInput) (fb : Bool) :
    (runSession false env subs fb).halted = true ∧
    (runSession false env subs fb).startupError
        = some "Model file not found. Please ensure disaster_model.pkl is available in the app directory." ∧
    (runSession false env subs fb).outputs = [] :=
  ⟨rfl, rfl, rfl⟩

/-- C4: if predict raises, the handler surfaces the original message as
`Prediction failed: ` plus that message, the map file is untouched for
that submission (no map was rendered or saved), and the session still
processes every submission in full. -/
theorem predict_error_caught (env : Env) (i : RegionInput) (msg : String) (fb : Bool)
    (h : env.predict (predictArg i) = Except.error msg) :
    (processSubmission env i fb).outcome
        = SubmissionOutcome.failed ("Prediction failed: " ++ msg) ∧
    (processSubmission env i fb).mapFileAfter = fb ∧
    ∀ subs fb2, ((runSession true env subs fb2).outputs).length = subs.length := by
  have ht : trySubmission env i = Except.error msg := by
    unfold trySubmission; rw [h]; rfl
  refine ⟨?_, ?_, fun subs fb2 => ?_⟩
  · simp [processSubmission, primaryOutcome, ht]
  · simp [processSubmission, ht]
  · simp [runSession, runSubs_length]

/-- Witness for C4: a model that always raises, at the example input. -/
theorem predict_error_caught_witness :
    (processSubmission envErr exampleInput false).outcome
        = SubmissionOutcome.failed ("Prediction failed: " ++ "boom") :=
  (predict_error_caught envErr exampleInput "boom" false rfl).1

/-- C5: icon colour selection is a total function over label strings:
High maps to red, Medium to orange, and every other string to green. -/
theorem iconColor_rule :
    iconColor "High" = "red" ∧ iconColor "Medium" = "orange" ∧
    ∀ label, label ≠ "High" → label ≠ "Medium" → iconColor label = "green" := by
  refine ⟨rfl, rfl, fun label h1 h2 => ?_⟩
  simp [iconColor, h1, h2]

/-- Witness for C5 at the label Low (which falls through to green). -/
theorem iconColor_rule_witness : iconColor "Low" = "green" :=
  iconColor_rule.2.2 "Low" (by decide) (by decide)

/-- C6: for every render, the overlays drawn are exactly the same fixed
five regions with fixed coordinates, independent of the input coordinates
and of the predicted label. -/
theorem overlays_static (latitude longitude : ℚ) (prediction : String)
    (damage_scale : ℤ) :
    (renderMap latitude longitude prediction damage_scale).overlays
        = [ ⟨(25.9, 85.1), 50000, "red", true, 0.3, "High Risk Area: Bihar"⟩,
            ⟨(26.2, 91.7), 50000, "red", true, 0.3, "High Risk Area: Assam"⟩,
            ⟨(20.9, 85.1), 50000, "red", true, 0.3, "High Risk Area: Odisha"⟩,
            ⟨(30.1, 79.3), 50000, "red", true, 0.3, "High Risk Area: Uttarakhand"⟩,
            ⟨(11.1, 78.7), 50000, "red", true, 0.3, "High Risk Area: Tamil Nadu"⟩ ] := by
  rfl

/-- C7: derive is deterministic: identical in-range inputs always yield
identical derived features (derive is a pure function of its input). -/
theorem derive_deterministic (i j : RegionInput) (hi : InRange i) (h : i = j) :
    derive i = derive j := by rw [h]

/-- Witness for C7 at the example input. -/
theorem derive_deterministic_witness : derive exampleInput = derive exampleInput :=
  derive_deterministic exampleInput exampleInput (by norm_num [InRange, exampleInput]) rfl

/-- C8: after every submission, whatever the primary outcome, the
secondary full-map display is attempted: a missing file yields only the
warning, a present file is embedded, and the primary outcome is
determined solely by the try block, independent of the map-file state. -/
theorem secondary_display (env : Env) (i : RegionInput) (fb : Bool) :
    ((processSubmission env i fb).mapFileAfter = false →
        (processSubmission env i fb).secondary = Secondary.warnMissing) ∧
    ((processSubmission env i fb).mapFileAfter = true →
        (processSubmission env i fb).secondary = Secondary.embedFile) ∧
    (processSubmission env i fb).outcome = primaryOutcome env i := by
  cases htry : trySubmission env i <;> cases fb <;>
    simp [processSubmission, htry]

/-- Witness for C8: with a successful save the file exists afterwards
and the secondary section embeds it. -/
theorem secondary_display_witness :
    (processSubmission envOk exampleInput false).secondary = Secondary.embedFile :=
  (secondary_display envOk exampleInput false).2.1 rfl

/-- C9: an exception raised in the map-save stage after a successful
predict is caught by the same handler and reported as a prediction
failure carrying the save error message, and the map file is left
unwritten for that submission. -/
theorem save_error_reported (env : Env) (i : RegionInput) (label : String)
    (rest : List String) (e : String) (fb : Bool)
    (hp : env.predict (predictArg i) = Except.ok (label :: rest))
    (hs : env.saveResult = Except.error e) :
    (processSubmission env i fb).outcome
        = SubmissionOutcome.failed ("Prediction failed: " ++ e) ∧
    (processSubmission env i fb).mapFileAfter = fb := by
  have ht : trySubmission env i = Except.error e := by
    unfold trySubmission; rw [hp, hs]; rfl
  exact ⟨by simp [processSubmission, primaryOutcome, ht],
         by simp [processSubmission, ht]⟩

/-- Witness for C9: predict succeeds with High but the save raises. -/
theorem save_error_reported_witness :
    (processSubmission envSaveFail exampleInput false).outcome
        = SubmissionOutcome.failed ("Prediction failed: " ++ "disk full") :=
  (save_error_reported envSaveFail exampleInput "High" [] "disk full" false rfl rfl).1

/-- C10: for form-accepted inputs damage_scale is a nonnegative integer
of size at most 20000, and the marker popup renders it via the integer
toString. -/
theorem damage_scale_bounds (i : RegionInput) (h : InRange i) :
    0 ≤ (derive i).damage_scale ∧ (derive i).damage_scale ≤ 20000 ∧
    (renderMap i.latitude i.longitude "High" (derive i).damage_scale).marker.popup
        = "<b>Risk Level:</b> High<br><b>Damage Scale:</b> "
            ++ toString (derive i).damage_scale := by
  obtain ⟨_, _, _, _, _, _, hha0, hha1, hd0, hd1, _⟩ := h
  refine ⟨?_, ?_, rfl⟩
  · simp only [derive]; linarith
  · simp only [derive]; linarith

/-- Witness for C10 at the example input: damage_scale 200 is within
the bounds. -/
theorem damage_scale_bounds_witness :
    0 ≤ (derive exampleInput).damage_scale ∧
    (derive exampleInput).damage_scale ≤ 20000 :=
  ⟨(damage_scale_bounds exampleInput (by norm_num [InRange, exampleInput])).1,
   (damage_scale_bounds exampleInput (by norm_num [InRange, exampleInput])).2.1⟩

end DisasterModel
